import Mathlib

/-!
Verification of the podracer driving-simulation core against its
specification.  The simulation state, the per-tick update `runGameLoop`, the
session initialisation and the session-end summary are embedded as executable
Lean definitions translated from the TypeScript source (`GameCanvas`,
`finishRace`, `analyzeRacePerformance`).  Numbers are modelled as rationals;
the transcendental functions the source applies (`Math.cos`, `Math.sin`,
`Math.atan2`) are passed in as function parameters, so every theorem
quantifies over them, and concrete scenarios instantiate them at the single
angle they actually sample.  Distances are compared squared: `Math.sqrt` is
strictly monotone on nonnegative reals, so the argmin of the closest-point
scan and every threshold comparison against a nonnegative bound agree with
the source's comparisons of square roots.
-/

set_option maxRecDepth 100000

/-- A 2D track point (source `Point`: fields `x`, `y`). -/
structure Point where
  x : ℚ
  y : ℚ
deriving DecidableEq

/-- Source `TrackData`; `id`/`name` dropped, `color` and `difficulty` kept as
plain strings (presentation-only, never consumed by the simulation). -/
structure TrackData where
  points : List Point
  width : ℚ
  color : String
  difficulty : String
deriving DecidableEq

/-- Source `CarConfig` (tuning fields consumed by the physics). -/
structure CarConfig where
  acceleration : ℚ
  topSpeed : ℚ
  handling : ℚ
deriving DecidableEq

/-- The held-key map sampled each tick (source `gameState.keys`). -/
structure Keys where
  arrowUp : Bool
  arrowDown : Bool
  arrowLeft : Bool
  arrowRight : Bool
  shift : Bool
deriving DecidableEq

/-- Source `gameState.car`: pose, velocity, drift and boost state. -/
structure Car where
  x : ℚ
  z : ℚ
  angle : ℚ
  velX : ℚ
  velZ : ℚ
  speed : ℚ
  drifting : Bool
  driftCharge : ℚ
  boostTimer : ℚ
deriving DecidableEq

/-- Source `ParticleData` (cosmetic spark particles). -/
structure ParticleData where
  id : ℕ
  x : ℚ
  y : ℚ
  z : ℚ
  vx : ℚ
  vy : ℚ
  vz : ℚ
  life : ℚ
  color : String
deriving DecidableEq

/-- Source `SkidMarkData` (cosmetic skid marks). -/
structure SkidMarkData where
  id : ℕ
  x : ℚ
  z : ℚ
  opacity : ℚ
  angle : ℚ
deriving DecidableEq

/-- Source `LapTelemetry`.  `maxSpeed` is an integer because the source
stores `Math.round(maxSpeed * 10)`. -/
structure LapTelemetry where
  lapNumber : ℕ
  time : ℚ
  maxSpeed : ℤ
  averageSpeed : ℚ
  offTrackCount : ℕ
  collisions : ℕ
deriving DecidableEq

/-- Source `gameState.currentTelemetry`: the per-lap accumulators. -/
structure CurrentTelemetry where
  maxSpeed : ℚ
  collisions : ℕ
  offTrackFrames : ℕ
deriving DecidableEq

/-- Source `gameState.checkpoints`: the four quarter flags. -/
structure Checkpoints where
  c0 : Bool
  c1 : Bool
  c2 : Bool
  c3 : Bool
deriving DecidableEq

/-- The whole mutable simulation state (source `gameState`), minus the held
keys, which are an input to each tick here. -/
structure GameState where
  car : Car
  particles : List ParticleData
  skidMarks : List SkidMarkData
  laps : ℕ
  lapStartTime : ℚ
  checkpoints : Checkpoints
  telemetry : List LapTelemetry
  currentTelemetry : CurrentTelemetry
  particleIdCounter : ℕ
deriving DecidableEq

/-- The values `Math.random()` contributes to one spark particle: `dx`/`dz`
model `(Math.random() - 0.5) * 20`, `vy` models `Math.random() * 2` and
`life` models `0.3 + Math.random() * 0.2`. -/
structure SparkRand where
  dx : ℚ
  dz : ℚ
  vy : ℚ
  life : ℚ
deriving DecidableEq

/-- All randomness one tick draws: the `Math.random() > 0.5` skid-mark coin
and the two spark samples. -/
structure TickRand where
  emitSkid : Bool
  spark1 : SparkRand
  spark2 : SparkRand
deriving DecidableEq

/-- One tick's external inputs: the sampled keys, the (already capped) time
delta in seconds, the wall clock `Date.now()` in milliseconds, and the
random draws. -/
structure TickIn where
  keys : Keys
  dt : ℚ
  now : ℚ
  rand : TickRand
deriving DecidableEq

/-- Source `GameSessionStats`. -/
structure GameSessionStats where
  totalLaps : ℕ
  bestLap : Option ℚ
  telemetry : List LapTelemetry
  timestamp : String
deriving DecidableEq

/-- JavaScript `Math.round`: round half toward positive infinity. -/
def jsRound (q : ℚ) : ℤ := ⌊q + 1 / 2⌋

/-- The closest-point scan (source lines computing `closestPointIndex` and
`minDistance`): linear scan keeping the first strictly closer point, started
from index `-1` and distance `Infinity` (modelled as `none`).  Distances are
kept squared; `<` on squares agrees with `<` on the nonnegative roots. -/
def closestScanAux (x z : ℚ) : List Point → ℤ → ℤ × Option ℚ → ℤ × Option ℚ
  | [], _, best => best
  | p :: rest, i, best =>
      let d2 := (x - p.x) ^ 2 + (z - p.y) ^ 2
      let closer : Bool :=
        match best.2 with
        | none => true
        | some m => decide (d2 < m)
      closestScanAux x z rest (i + 1) (if closer then (i, some d2) else best)

/-- Index and squared distance of the nearest track point to `(x, z)`. -/
def closestScan (pts : List Point) (x z : ℚ) : ℤ × Option ℚ :=
  closestScanAux x z pts 0 (-1, none)

/-- Source `minDistance > track.width / 2`.  `none` is the empty-track
`Infinity` case; for `width < 0` the comparison of the nonnegative distance
against the negative bound is always true, otherwise it is the squared
comparison. -/
def isOffTrack (minDistSq : Option ℚ) (width : ℚ) : Bool :=
  match minDistSq with
  | none => true
  | some d2 => if width < 0 then true else decide ((width / 2) ^ 2 < d2)

/-- The source's drift condition
`keys.Shift && canDrift && (isTurning || car.drifting)` with
`canDrift = |speed| > 10` and `isTurning = ArrowLeft || ArrowRight`. -/
def driftActive (k : Keys) (c : Car) : Bool :=
  k.shift && decide ((10 : ℚ) < |c.speed|) && (k.arrowLeft || k.arrowRight || c.drifting)

/-- The drift-and-boost arbitration block of `runGameLoop`: while the drift
condition holds the charge grows by `dt * 30` as long as it is below 100;
otherwise drifting ends, a boost of 2.0s (charge > 80) or 1.0s (charge > 30)
is granted if the car was drifting with charge above 30, and the charge
resets to 0. -/
def driftBoostStep (c : Car) (k : Keys) (dt : ℚ) : Car :=
  if driftActive k c then
    { c with drifting := true,
             driftCharge :=
               if c.driftCharge < 100 then c.driftCharge + dt * 30 else c.driftCharge }
  else
    { c with boostTimer :=
               if c.drifting ∧ 30 < c.driftCharge then
                 (if 80 < c.driftCharge then 2 else 1)
               else c.boostTimer,
             drifting := false,
             driftCharge := 0 }

/-- The physics block of `runGameLoop`: boost application (timer decay, top
speed times 1.5, acceleration times 2), longitudinal dynamics with the
clamp `max (min speed top) (-top/3)`, turning, the grip blend of the
velocity toward the heading-aligned target, and position integration. -/
def physicsStep (cfg : CarConfig) (cosf sinf : ℚ → ℚ) (c : Car) (k : Keys) (dt : ℚ) : Car :=
  let boostTimer := if 0 < c.boostTimer then c.boostTimer - dt else c.boostTimer
  let currentTopSpeed := if 0 < c.boostTimer then cfg.topSpeed * (3 / 2) else cfg.topSpeed
  let acceleration := if 0 < c.boostTimer then cfg.acceleration * 2 else cfg.acceleration
  let speed0 :=
    if k.arrowUp then c.speed + acceleration * dt * 60
    else if k.arrowDown then c.speed - acceleration * (3 / 2) * dt * 60
    else c.speed * (if c.drifting then 99 / 100 else 98 / 100)
  let speed := max (min speed0 currentTopSpeed) (-(currentTopSpeed / 3))
  let turnRate0 := (4 / 100) * (|speed| / cfg.topSpeed) + 2 / 100
  let turnRate := if c.drifting then turnRate0 * (14 / 10) else turnRate0
  let angle :=
    if (1 / 10 : ℚ) < |speed| then
      (fun a1 => if k.arrowRight then a1 + turnRate * dt * 60 else a1)
        (if k.arrowLeft then c.angle - turnRate * dt * 60 else c.angle)
    else c.angle
  let grip := if c.drifting then 23 / 25 else cfg.handling
  let velX := c.velX * grip + cosf angle * speed * (1 - grip)
  let velZ := c.velZ * grip + sinf angle * speed * (1 - grip)
  { c with boostTimer := boostTimer, speed := speed, angle := angle,
           velX := velX, velZ := velZ,
           x := c.x + velX * dt * 60, z := c.z + velZ * dt * 60 }

/-- The off-track penalty block: drifting forced off, charge zeroed, speed
and velocity multiplied by 0.92. -/
def offTrackStep (c : Car) : Car :=
  { c with drifting := false, driftCharge := 0,
           speed := c.speed * (23 / 25),
           velX := c.velX * (23 / 25), velZ := c.velZ * (23 / 25) }

/-- Particle aging: move by the per-frame velocity, decay `life` by `dt`,
and drop particles at `life ≤ 0` (the source's backward splice keeps order,
so it equals this map-then-filter). -/
def ageParticles (dt : ℚ) (ps : List ParticleData) : List ParticleData :=
  (ps.map fun p =>
    { p with x := p.x + p.vx, y := p.y + p.vy, z := p.z + p.vz, life := p.life - dt }).filter
    fun p => decide (0 < p.life)

/-- Skid-mark aging: fade by `dt * 0.5` and drop at opacity `≤ 0`. -/
def ageSkidMarks (dt : ℚ) (ms : List SkidMarkData) : List SkidMarkData :=
  (ms.map fun m => { m with opacity := m.opacity - dt * (1 / 2) }).filter
    fun m => decide (0 < m.opacity)

/-- Spark tint by drift-charge tier (source colors). -/
def sparkColor (charge : ℚ) : String :=
  if (80 : ℚ) < charge then "#ef4444"
  else if (30 : ℚ) < charge then "#eab308"
  else "#cbd5e1"

/-- One spark particle as the source pushes it, with its random samples. -/
def mkSpark (c : Car) (hx hz : ℚ) (pid : ℕ) (r : SparkRand) : ParticleData :=
  { id := pid, x := c.x + r.dx, y := 5, z := c.z + r.dz,
    vx := -hx * c.speed * (1 / 5), vy := r.vy, vz := -hz * c.speed * (1 / 5),
    life := r.life, color := sparkColor c.driftCharge }

/-- The spawn block: while drifting at `|speed| > 15`, optionally one skid
mark (the 50% coin) and always two sparks, ids drawn from the counter. -/
def spawnEffects (c : Car) (hx hz : ℚ) (ps : List ParticleData) (ms : List SkidMarkData)
    (ctr : ℕ) (r : TickRand) : List ParticleData × List SkidMarkData × ℕ :=
  if c.drifting && decide ((15 : ℚ) < |c.speed|) then
    let withSkid : List SkidMarkData × ℕ :=
      if r.emitSkid then
        (ms ++ [{ id := ctr, x := c.x, z := c.z, opacity := 4 / 5, angle := c.angle }], ctr + 1)
      else (ms, ctr)
    (ps ++ [mkSpark c hx hz withSkid.2 r.spark1, mkSpark c hx hz (withSkid.2 + 1) r.spark2],
     withSkid.1, withSkid.2 + 2)
  else (ps, ms, ctr)

/-- The checkpoint-marking block: `zone = Math.floor(totalPoints / 4)`,
`sec = Math.floor(idx / zone)`, and `checkpoints[sec] = true` only under the
guard `0 ≤ sec < 4`.  When `zone = 0` the JavaScript quotient is `Infinity`
(or `NaN` for `idx = 0`), which fails the guard, so nothing is marked;
that case is modelled explicitly.  `Int` division `/` is floor division for
a positive divisor, matching `Math.floor` of the real quotient. -/
def Checkpoints.mark (cp : Checkpoints) (i : ℤ) : Checkpoints :=
  if i = 0 then { cp with c0 := true }
  else if i = 1 then { cp with c1 := true }
  else if i = 2 then { cp with c2 := true }
  else if i = 3 then { cp with c3 := true }
  else cp

/-- Per-tick checkpoint update (source lines for `checkpointZone`,
`currentSection` and the guarded marking). -/
def updateCheckpoints (n : ℕ) (idx : ℤ) (cp : Checkpoints) : Checkpoints :=
  if n / 4 = 0 then cp
  else if 0 ≤ idx / ((n / 4 : ℕ) : ℤ) ∧ idx / ((n / 4 : ℕ) : ℤ) < 4 then
    cp.mark (idx / ((n / 4 : ℕ) : ℤ))
  else cp

/-- The lap-completion test of `runGameLoop`: closest index below 10 and
quarter flags 2 and 3 both set, checked on the flags as updated this tick. -/
def lapTrigger (tr : TrackData) (s : GameState) : Bool :=
  let idx := (closestScan tr.points s.car.x s.car.z).1
  let cps := updateCheckpoints tr.points.length idx s.checkpoints
  decide (idx < 10) && cps.c2 && cps.c3

/-- One simulation tick (source `runGameLoop`), for a fixed key snapshot.
The source's AI block only rewrites the held-key map before the physics
reads it, so every AI difficulty is subsumed by quantifying over the key
input; the block itself is not modelled.  The returned `currentMph` only
feeds the HUD and is dropped. -/
def runGameLoop (tr : TrackData) (cfg : CarConfig) (cosf sinf : ℚ → ℚ)
    (s : GameState) (inp : TickIn) : GameState :=
  let scan := closestScan tr.points s.car.x s.car.z
  let car1 := driftBoostStep s.car inp.keys inp.dt
  let car2 := physicsStep cfg cosf sinf car1 inp.keys inp.dt
  let off := isOffTrack scan.2 tr.width
  let car3 := if off then offTrackStep car2 else car2
  let ctel1 : CurrentTelemetry :=
    { s.currentTelemetry with
      offTrackFrames :=
        if off then s.currentTelemetry.offTrackFrames + 1
        else s.currentTelemetry.offTrackFrames }
  let eff := spawnEffects car3 (cosf car3.angle) (sinf car3.angle)
    (ageParticles inp.dt s.particles) (ageSkidMarks inp.dt s.skidMarks)
    s.particleIdCounter inp.rand
  let cps1 := updateCheckpoints tr.points.length scan.1 s.checkpoints
  let lapDone := lapTrigger tr s
  let record : LapTelemetry :=
    { lapNumber := s.laps + 1,
      time := (inp.now - s.lapStartTime) / 1000,
      maxSpeed := jsRound (ctel1.maxSpeed * 10),
      averageSpeed := 0,
      offTrackCount := ctel1.offTrackFrames / 60,
      collisions := ctel1.collisions / 10 }
  let ctel2 := if lapDone then (⟨0, 0, 0⟩ : CurrentTelemetry) else ctel1
  let currentMph := |car3.speed| * 10
  { car := car3,
    particles := eff.1,
    skidMarks := eff.2.1,
    laps := if lapDone then s.laps + 1 else s.laps,
    lapStartTime := if lapDone then inp.now else s.lapStartTime,
    checkpoints := if lapDone then ⟨false, false, false, false⟩ else cps1,
    telemetry := if lapDone then s.telemetry ++ [record] else s.telemetry,
    currentTelemetry :=
      if ctel2.maxSpeed < currentMph then { ctel2 with maxSpeed := currentMph } else ctel2,
    particleIdCounter := eff.2.2 }

/-- A whole session: fold the tick over the input trace. -/
def runRace (tr : TrackData) (cfg : CarConfig) (cosf sinf : ℚ → ℚ)
    (s : GameState) (ins : List TickIn) : GameState :=
  ins.foldl (runGameLoop tr cfg cosf sinf) s

/-- Session-car construction (source `gameState.car` initialisation plus the
mount effect): position at `points[0]`, heading `atan2` toward
`points[1] || { x: points[0].x + 10, y: points[0].y }`.  An empty points
list makes the source read `track.points[0].x` of `undefined` and throw a
`TypeError`, modelled as `none`; no width check and no point-count check
exists.  `atn` stands for `Math.atan2 dy dx`. -/
def initCar (atn : ℚ → ℚ → ℚ) (tr : TrackData) : Option Car :=
  match tr.points with
  | [] => none
  | p0 :: rest =>
      let nextP := rest.headD ⟨p0.x + 10, p0.y⟩
      some { x := p0.x, z := p0.y, angle := atn (nextP.y - p0.y) (nextP.x - p0.x),
             velX := 0, velZ := 0, speed := 0, drifting := false,
             driftCharge := 0, boostTimer := 0 }

/-- Full initial `gameState` (source literal: empty effects, zero laps and
accumulators, all checkpoints false, lap timer at the start time). -/
def initGameState (atn : ℚ → ℚ → ℚ) (tr : TrackData) (startTime : ℚ) : Option GameState :=
  (initCar atn tr).map fun c =>
    { car := c, particles := [], skidMarks := [], laps := 0,
      lapStartTime := startTime, checkpoints := ⟨false, false, false, false⟩,
      telemetry := [], currentTelemetry := ⟨0, 0, 0⟩, particleIdCounter := 0 }

/-- The same initial state for a track already known nonempty, with the
initial heading `angle0 = atan2` of the first two points passed directly. -/
def raceStart (tr : TrackData) (angle0 startTime : ℚ) : GameState :=
  { car := { x := (tr.points.headD ⟨0, 0⟩).x, z := (tr.points.headD ⟨0, 0⟩).y,
             angle := angle0, velX := 0, velZ := 0, speed := 0,
             drifting := false, driftCharge := 0, boostTimer := 0 },
    particles := [], skidMarks := [], laps := 0, lapStartTime := startTime,
    checkpoints := ⟨false, false, false, false⟩, telemetry := [],
    currentTelemetry := ⟨0, 0, 0⟩, particleIdCounter := 0 }

/-- Source `finishRace`: total laps from the lap counter, best lap the
`Math.min` over the recorded times when any exist, else `null`. -/
def finishRace (s : GameState) (timestamp : String) : GameSessionStats :=
  { totalLaps := s.laps,
    bestLap :=
      match s.telemetry with
      | [] => none
      | r :: rs => some ((rs.map LapTelemetry.time).foldl min r.time),
    telemetry := s.telemetry,
    timestamp := timestamp }

/-- Outcome of the external summarizer call (`ai.models.generateContent`):
either the whole call throws, or it returns with `response.text` a string or
`undefined`. -/
inductive SummOutcome where
  | failure : SummOutcome
  | success : Option String → SummOutcome
deriving DecidableEq

/-- Source `analyzeRacePerformance`: the `catch` branch returns the fixed
radio-down string; `response.text || fallback` returns the fixed
no-data string when the text is `undefined` or empty (both falsy). -/
def analyzeRacePerformance (stats : GameSessionStats) (o : SummOutcome) : String :=
  match o with
  | .failure => "Crew Chief radio is down. Check your network connection or API key."
  | .success none => "Communication error with Crew Chief. No data received."
  | .success (some t) =>
      if t = "" then "Communication error with Crew Chief. No data received."
      else t

/-- The analysis view (source `App`/`CrewChief`): the stored session stats
are kept alongside the summarizer's message and are only read by it. -/
def analyzeView (stats : GameSessionStats) (o : SummOutcome) : String × GameSessionStats :=
  (analyzeRacePerformance stats o, stats)

/-!
Concrete scenario material.  Every scenario track runs along the positive
x-axis from the origin, so the initial heading `atan2 0 dx` is exactly `0`;
the steering inputs used either hold no steer key or hold left and right
together, whose equal and opposite heading updates cancel exactly, so the
heading stays `0` throughout and the trig parameters are only ever sampled
at `0`, where `cos 0 = 1` and `sin 0 = 0`.  The instantiations below agree
with cosine, sine and atan2 at every sampled point.
-/

/-- Cosine stand-in, sampled only at angle 0. -/
def cosQ0 : ℚ → ℚ := fun _ => 1

/-- Sine stand-in, sampled only at angle 0. -/
def sinQ0 : ℚ → ℚ := fun _ => 0

/-- Atan2 stand-in, sampled only at bearings along the positive x-axis. -/
def atanQ0 : ℚ → ℚ → ℚ := fun _ _ => 0

/-- Deterministic random draws: no skid-mark coin, zero spark samples. -/
def noRand : TickRand := ⟨false, ⟨0, 0, 0, 0⟩, ⟨0, 0, 0, 0⟩⟩

/-- Accelerate only. -/
def keysUp : Keys := ⟨true, false, false, false, false⟩

/-- Accelerate, steer left and right together (they cancel), drift modifier. -/
def keysDriftUp : Keys := ⟨true, false, true, true, true⟩

/-- Brake only. -/
def keysBrake : Keys := ⟨false, true, false, false, false⟩

/-- No intents held. -/
def keysNone : Keys := ⟨false, false, false, false, false⟩

/-- A tick at the cap delta `dt = 1/10`, wall clock 0, deterministic draws. -/
def tIn (k : Keys) : TickIn := ⟨k, 1 / 10, 0, noRand⟩

/-- A two-point track along the x-axis of the given width. -/
def trackStraight (w : ℚ) : TrackData :=
  ⟨[⟨0, 0⟩, ⟨10, 0⟩], w, "#f59e0b", "Easy"⟩

/-- Test vehicle: acceleration 0.5, top speed 32, handling 1. -/
def cfgTest : CarConfig := ⟨1 / 2, 32, 1⟩

/-- C1 scenario: 4 acceleration ticks (speed 12), 11 drift ticks (charge 33,
speed clamped at 32), release into a 1.0s boost and brake for 6 ticks; the
doubled boosted braking drives the speed to the boosted reverse clamp. -/
def insC1 : List TickIn :=
  List.replicate 4 (tIn keysUp) ++ List.replicate 11 (tIn keysDriftUp) ++
    List.replicate 6 (tIn keysBrake)

/-- The C1 scenario's final state. -/
def c1run : GameState :=
  runRace (trackStraight 1000000) cfgTest cosQ0 sinQ0
    (raceStart (trackStraight 1000000) 0 0) insC1

/-- C4 scenario: 4 acceleration ticks then 34 drift ticks; the 34th drift
tick starts at charge 99 < 100 and accumulates to 102. -/
def insC4 : List TickIn :=
  List.replicate 4 (tIn keysUp) ++ List.replicate 34 (tIn keysDriftUp)

/-- The C4 scenario's final state. -/
def c4run : GameState :=
  runRace (trackStraight 1000000) cfgTest cosQ0 sinQ0
    (raceStart (trackStraight 1000000) 0 0) insC4

/-- C2 scenario track: width 1080, so the drifting car is on track through
the 15 preparation ticks (distance about 489.8 ≤ 540 at the last of them)
and off track at the 16th (distance about 591.5 > 540). -/
def trackC2 : TrackData := trackStraight 1080

/-- C2 scenario, state before the off-track tick: 4 acceleration ticks then
11 drift ticks, all on track, leaving the car drifting with charge 33. -/
def c2pre : GameState :=
  runRace trackC2 cfgTest cosQ0 sinQ0 (raceStart trackC2 0 0)
    (List.replicate 4 (tIn keysUp) ++ List.replicate 11 (tIn keysDriftUp))

/-- C2 scenario, the off-track tick: drift keys still held, so arbitration
keeps drifting (charge 36) but the off-track penalty then ends the drift. -/
def c2post : GameState := runGameLoop trackC2 cfgTest cosQ0 sinQ0 c2pre (tIn keysDriftUp)

/-- C5 scenario: a 5-point track; its point count is not a multiple of 4. -/
def track5 : TrackData :=
  ⟨[⟨0, 0⟩, ⟨10, 0⟩, ⟨20, 0⟩, ⟨30, 0⟩, ⟨40, 0⟩], 1000000, "#a855f7", "Hard"⟩

/-- C5 scenario state: the car at rest on the final track point (index 4). -/
def c5state : GameState :=
  { car := ⟨40, 0, 0, 0, 0, 0, false, 0, 0⟩, particles := [], skidMarks := [],
    laps := 0, lapStartTime := 0, checkpoints := ⟨false, false, false, false⟩,
    telemetry := [], currentTelemetry := ⟨0, 0, 0⟩, particleIdCounter := 0 }

/-- C5 scenario: one tick with no intents from the final-point state. -/
def c5post : GameState := runGameLoop track5 cfgTest cosQ0 sinQ0 c5state (tIn keysNone)

/-- Modelled from the spec's words (for comparison with the code's marking):
`quarter = floor(closestPointIndex / (trackLength/4))`, clamped to the
valid range 0..3. -/
def specClampedQuarter (n idx : ℕ) : ℕ := min (idx / (n / 4)) 3

/-- C3: whether the tick's closest-point index falls in quarter sector 2 or
3 (the back half); false also in the degenerate `zone = 0` case, where the
source marks nothing. -/
def backHalfSector (tr : TrackData) (s : GameState) : Bool :=
  if tr.points.length / 4 = 0 then false
  else
    decide ((closestScan tr.points s.car.x s.car.z).1 / ((tr.points.length / 4 : ℕ) : ℤ) = 2 ∨
      (closestScan tr.points s.car.x s.car.z).1 / ((tr.points.length / 4 : ℕ) : ℤ) = 3)

/-- C3 witness scenario: an 8-point track with the car resting at point 0. -/
def track8 : TrackData :=
  ⟨[⟨0, 0⟩, ⟨10, 0⟩, ⟨20, 0⟩, ⟨30, 0⟩, ⟨40, 0⟩, ⟨50, 0⟩, ⟨60, 0⟩, ⟨70, 0⟩],
   1000000, "#ef4444", "Medium"⟩

/-- C7 counterexample input: a single-point track with nonpositive width. -/
def onePointTrack : TrackData := ⟨[⟨5, 7⟩], -3, "#3b82f6", "Easy"⟩

/-- The boosted top speed the tick's physics block uses: 1.5 times the
configured top speed while the (post-arbitration) boost timer is positive. -/
def boostedTopSpeed (cfg : CarConfig) (c : Car) : ℚ :=
  if 0 < c.boostTimer then cfg.topSpeed * (3 / 2) else cfg.topSpeed

/-- The tick's raw (pre-clamp) speed update: accelerate, brake, or passive
decay, with the boost-doubled acceleration. -/
def rawSpeed (cfg : CarConfig) (c : Car) (k : Keys) (dt : ℚ) : ℚ :=
  if k.arrowUp then
    c.speed + (if 0 < c.boostTimer then cfg.acceleration * 2 else cfg.acceleration) * dt * 60
  else if k.arrowDown then
    c.speed - (if 0 < c.boostTimer then cfg.acceleration * 2 else cfg.acceleration) * (3 / 2) * dt * 60
  else c.speed * (if c.drifting then 99 / 100 else 98 / 100)

theorem runGameLoop_car (tr : TrackData) (cfg : CarConfig) (cosf sinf : ℚ → ℚ)
    (s : GameState) (inp : TickIn) :
    (runGameLoop tr cfg cosf sinf s inp).car =
      (if isOffTrack (closestScan tr.points s.car.x s.car.z).2 tr.width then
        offTrackStep (physicsStep cfg cosf sinf (driftBoostStep s.car inp.keys inp.dt) inp.keys inp.dt)
       else
        physicsStep cfg cosf sinf (driftBoostStep s.car inp.keys inp.dt) inp.keys inp.dt) := rfl

theorem physicsStep_speed (cfg : CarConfig) (cosf sinf : ℚ → ℚ) (c : Car) (k : Keys) (dt : ℚ) :
    (physicsStep cfg cosf sinf c k dt).speed =
      max (min (rawSpeed cfg c k dt) (boostedTopSpeed cfg c)) (-(boostedTopSpeed cfg c / 3)) := rfl

theorem offTrackStep_speed (c : Car) : (offTrackStep c).speed = c.speed * (23 / 25) := rfl

theorem clamp_bounds (a m : ℚ) (hm : 0 < m) :
    -(m / 3) ≤ max (min a m) (-(m / 3)) ∧ max (min a m) (-(m / 3)) ≤ m := by
  constructor
  · exact le_max_right _ _
  · exact max_le (le_trans (min_le_right _ _) le_rfl) (by linarith)

theorem shrink_bounds (x m : ℚ) (hm : 0 < m) (h1 : -(m / 3) ≤ x) (h2 : x ≤ m) :
    -(m / 3) ≤ x * (23 / 25) ∧ x * (23 / 25) ≤ m := by
  constructor <;> nlinarith

/-- Claim C2 (amended): when the tick's drift arbitration runs with the
drift condition false, drifting is cleared, the charge resets to 0, and a
boost timer of exactly 2.0s (charge > 80) or 1.0s (30 < charge ≤ 80) is set
exactly when the car was drifting with charge above 30 (the same tick's
boost application then decrements that timer by `dt`); when instead the
off-track penalty ends the drift, the boost timer is unchanged — no boost is
granted there. -/
theorem c2_boost_grant (c : Car) (k : Keys) (dt : ℚ) (h : driftActive k c = false) :
    (driftBoostStep c k dt).drifting = false ∧
    (driftBoostStep c k dt).driftCharge = 0 ∧
    (driftBoostStep c k dt).boostTimer =
      (if c.drifting ∧ 30 < c.driftCharge then (if 80 < c.driftCharge then 2 else 1)
       else c.boostTimer) ∧
    (offTrackStep c).drifting = false ∧
    (offTrackStep c).driftCharge = 0 ∧
    (offTrackStep c).boostTimer = c.boostTimer := by
  unfold driftBoostStep offTrackStep
  rw [h]
  simp

/-- Claim C2 witness: the amended statement evaluated at a concrete drifting
car whose drift condition fails with charge 50. -/
theorem c2_boost_grant_witness :
    (driftBoostStep ⟨0, 0, 0, 0, 0, 20, true, 50, 0⟩ keysNone (1 / 10)).drifting = false ∧
    (driftBoostStep ⟨0, 0, 0, 0, 0, 20, true, 50, 0⟩ keysNone (1 / 10)).driftCharge = 0 ∧
    (driftBoostStep ⟨0, 0, 0, 0, 0, 20, true, 50, 0⟩ keysNone (1 / 10)).boostTimer =
      (if (⟨0, 0, 0, 0, 0, 20, true, 50, 0⟩ : Car).drifting ∧
          30 < (⟨0, 0, 0, 0, 0, 20, true, 50, 0⟩ : Car).driftCharge then
        (if 80 < (⟨0, 0, 0, 0, 0, 20, true, 50, 0⟩ : Car).driftCharge then 2 else 1)
       else (⟨0, 0, 0, 0, 0, 20, true, 50, 0⟩ : Car).boostTimer) ∧
    (offTrackStep ⟨0, 0, 0, 0, 0, 20, true, 50, 0⟩).drifting = false ∧
    (offTrackStep ⟨0, 0, 0, 0, 0, 20, true, 50, 0⟩).driftCharge = 0 ∧
    (offTrackStep ⟨0, 0, 0, 0, 0, 20, true, 50, 0⟩).boostTimer =
      (⟨0, 0, 0, 0, 0, 20, true, 50, 0⟩ : Car).boostTimer :=
  c2_boost_grant _ _ _ (by with_unfolding_all decide)

/-- Claim C2 counterexample: a reachable tick in which the drifting flag
goes from true to false with charge 36 > 30 during the tick, yet the boost
timer stays 0 — the off-track penalty ends the drift without granting a
boost. -/
theorem c2_counterexample :
    c2pre.car.drifting = true ∧
    c2pre.car.driftCharge = 33 ∧
    c2pre.car.boostTimer = 0 ∧
    (driftBoostStep c2pre.car keysDriftUp (1 / 10)).drifting = true ∧
    (driftBoostStep c2pre.car keysDriftUp (1 / 10)).driftCharge = 36 ∧
    c2post.car.drifting = false ∧
    c2post.car.boostTimer = 0 := by
  with_unfolding_all decide

/-- Claim C7 (amended): session setup does no validation — construction
succeeds exactly when the track has at least one point (an empty list makes
the source fault on an undefined member access, not a ConfigurationError),
a one-point track is accepted through the synthesized fallback next point,
and the width plays no role in construction at all. -/
theorem c7_no_validation (f : ℚ → ℚ → ℚ) (tr : TrackData) (w : ℚ) :
    (initCar f tr).isSome = !tr.points.isEmpty ∧
    initCar f { tr with width := w } = initCar f tr := by
  cases h : tr.points with
  | nil => simp [initCar, h]
  | cons p rest => simp [initCar, h]

/-- Claim C7 counterexample: a track with a single point and negative width
is accepted by session setup; no ConfigurationError path exists. -/
theorem c7_counterexample :
    (initCar atanQ0 onePointTrack).isSome = true ∧
    onePointTrack.points.length = 1 ∧
    onePointTrack.width < 0 := by
  with_unfolding_all decide

/-- Claim C8: when the summarizer call throws, or returns no text (missing
or empty), the caller receives the fixed fallback string — independent of
the stats — rather than a raised fault, and the session stats the analysis
view holds are unchanged. -/
theorem c8_summarizer_fallback (stats stats2 : GameSessionStats) :
    analyzeRacePerformance stats .failure =
      "Crew Chief radio is down. Check your network connection or API key." ∧
    analyzeRacePerformance stats (.success none) =
      "Communication error with Crew Chief. No data received." ∧
    analyzeRacePerformance stats (.success (some "")) =
      "Communication error with Crew Chief. No data received." ∧
    analyzeRacePerformance stats .failure = analyzeRacePerformance stats2 .failure ∧
    (analyzeView stats .failure).2 = stats := by
  refine ⟨rfl, rfl, ?_, rfl, rfl⟩
  simp [analyzeRacePerformance]

/-- Claim C9: the cosmetic effects state never feeds back — two ticks from
states agreeing on everything but the particle list, the skid-mark list and
the id counter produce the same vehicle state, checkpoint flags, lap count,
telemetry and accumulators. -/
theorem c9_effects_noninterference (tr : TrackData) (cfg : CarConfig) (cosf sinf : ℚ → ℚ)
    (s : GameState) (inp : TickIn) (ps : List ParticleData) (ms : List SkidMarkData) (n : ℕ) :
    (runGameLoop tr cfg cosf sinf { s with particles := ps, skidMarks := ms, particleIdCounter := n } inp).car =
      (runGameLoop tr cfg cosf sinf s inp).car ∧
    (runGameLoop tr cfg cosf sinf { s with particles := ps, skidMarks := ms, particleIdCounter := n } inp).checkpoints =
      (runGameLoop tr cfg cosf sinf s inp).checkpoints ∧
    (runGameLoop tr cfg cosf sinf { s with particles := ps, skidMarks := ms, particleIdCounter := n } inp).laps =
      (runGameLoop tr cfg cosf sinf s inp).laps ∧
    (runGameLoop tr cfg cosf sinf { s with particles := ps, skidMarks := ms, particleIdCounter := n } inp).telemetry =
      (runGameLoop tr cfg cosf sinf s inp).telemetry ∧
    (runGameLoop tr cfg cosf sinf { s with particles := ps, skidMarks := ms, particleIdCounter := n } inp).currentTelemetry =
      (runGameLoop tr cfg cosf sinf s inp).currentTelemetry ∧
    (runGameLoop tr cfg cosf sinf { s with particles := ps, skidMarks := ms, particleIdCounter := n } inp).lapStartTime =
      (runGameLoop tr cfg cosf sinf s inp).lapStartTime :=
  ⟨rfl, rfl, rfl, rfl, rfl, rfl⟩

theorem physicsStep_drifting (cfg : CarConfig) (cosf sinf : ℚ → ℚ) (c : Car) (k : Keys) (dt : ℚ) :
    (physicsStep cfg cosf sinf c k dt).drifting = c.drifting := rfl

theorem physicsStep_driftCharge (cfg : CarConfig) (cosf sinf : ℚ → ℚ) (c : Car) (k : Keys) (dt : ℚ) :
    (physicsStep cfg cosf sinf c k dt).driftCharge = c.driftCharge := rfl

theorem offTrackStep_drifting (c : Car) : (offTrackStep c).drifting = false := rfl

theorem offTrackStep_driftCharge (c : Car) : (offTrackStep c).driftCharge = 0 := rfl

/-- Claim C1 (amended): after every tick the speed lies in `[-M/3, M]`,
where `M` is `topSpeed × 1.5` when the boost timer the physics block reads
(the one left by the tick's drift arbitration) is positive and `topSpeed`
otherwise — in particular the reverse clamp during boost is `-topSpeed/2`,
not `-topSpeed/3`. -/
theorem c1_speed_bounds (tr : TrackData) (cfg : CarConfig) (cosf sinf : ℚ → ℚ)
    (s : GameState) (inp : TickIn) (h : 0 < cfg.topSpeed) :
    -(boostedTopSpeed cfg (driftBoostStep s.car inp.keys inp.dt) / 3)
        ≤ (runGameLoop tr cfg cosf sinf s inp).car.speed ∧
    (runGameLoop tr cfg cosf sinf s inp).car.speed
        ≤ boostedTopSpeed cfg (driftBoostStep s.car inp.keys inp.dt) := by
  have hm : 0 < boostedTopSpeed cfg (driftBoostStep s.car inp.keys inp.dt) := by
    unfold boostedTopSpeed
    split
    · nlinarith
    · exact h
  rw [runGameLoop_car]
  split
  · rw [offTrackStep_speed, physicsStep_speed]
    have hc := clamp_bounds
      (rawSpeed cfg (driftBoostStep s.car inp.keys inp.dt) inp.keys inp.dt) _ hm
    exact shrink_bounds _ _ hm hc.1 hc.2
  · rw [physicsStep_speed]
    exact clamp_bounds _ _ hm

/-- Claim C1 witness: the amended bounds at a concrete track, car and tick. -/
theorem c1_speed_bounds_witness :
    -(boostedTopSpeed cfgTest
        (driftBoostStep (raceStart (trackStraight 1080) 0 0).car (tIn keysUp).keys (tIn keysUp).dt) / 3)
        ≤ (runGameLoop (trackStraight 1080) cfgTest cosQ0 sinQ0
            (raceStart (trackStraight 1080) 0 0) (tIn keysUp)).car.speed ∧
    (runGameLoop (trackStraight 1080) cfgTest cosQ0 sinQ0
        (raceStart (trackStraight 1080) 0 0) (tIn keysUp)).car.speed
        ≤ boostedTopSpeed cfgTest
            (driftBoostStep (raceStart (trackStraight 1080) 0 0).car (tIn keysUp).keys (tIn keysUp).dt) :=
  c1_speed_bounds _ _ _ _ _ _ (by decide)

/-- Claim C1 counterexample: a concrete 21-tick session (accelerate, drift
to charge 33, release into a boost, brake) after which the speed is `-16`,
strictly below `-topSpeed/3 = -32/3`, while the boost timer is still
positive; the heading stayed 0 throughout, so the trig stand-ins agree with
cosine and sine at every sampled angle. -/
theorem c1_counterexample :
    c1run.car.speed = -16 ∧
    c1run.car.boostTimer = 2 / 5 ∧
    c1run.car.speed < -(cfgTest.topSpeed / 3) ∧
    c1run.car.angle = 0 := by
  with_unfolding_all decide

theorem runGameLoop_driftCharge (tr : TrackData) (cfg : CarConfig) (cosf sinf : ℚ → ℚ)
    (s : GameState) (inp : TickIn) :
    (runGameLoop tr cfg cosf sinf s inp).car.driftCharge =
      (if (runGameLoop tr cfg cosf sinf s inp).car.drifting = true then
        (if s.car.driftCharge < 100 then s.car.driftCharge + inp.dt * 30 else s.car.driftCharge)
       else 0) := by
  rw [runGameLoop_car]
  split
  · simp [offTrackStep_driftCharge, offTrackStep_drifting]
  · rw [physicsStep_driftCharge, physicsStep_drifting]
    unfold driftBoostStep
    split
    · simp
    · simp

theorem charge_range_step (tr : TrackData) (cfg : CarConfig) (cosf sinf : ℚ → ℚ)
    (s : GameState) (inp : TickIn)
    (h0 : 0 ≤ s.car.driftCharge ∧ s.car.driftCharge < 103)
    (hdt : 0 ≤ inp.dt ∧ inp.dt ≤ 1 / 10) :
    0 ≤ (runGameLoop tr cfg cosf sinf s inp).car.driftCharge ∧
      (runGameLoop tr cfg cosf sinf s inp).car.driftCharge < 103 := by
  rw [runGameLoop_driftCharge]
  split
  · split
    · next hlt =>
        constructor
        · nlinarith [h0.1, hdt.1]
        · nlinarith [hdt.2]
    · exact h0
  · norm_num

theorem charge_range_run (tr : TrackData) (cfg : CarConfig) (cosf sinf : ℚ → ℚ) :
    ∀ (ins : List TickIn) (s0 : GameState),
      0 ≤ s0.car.driftCharge ∧ s0.car.driftCharge < 103 →
      (∀ i ∈ ins, 0 ≤ i.dt ∧ i.dt ≤ 1 / 10) →
      0 ≤ (runRace tr cfg cosf sinf s0 ins).car.driftCharge ∧
        (runRace tr cfg cosf sinf s0 ins).car.driftCharge < 103
  | [], s0, h0, _ => h0
  | i :: tl, s0, h0, hdt => by
      have hstep := charge_range_step tr cfg cosf sinf s0 i h0 (hdt i (List.mem_cons_self i tl))
      have htail := charge_range_run tr cfg cosf sinf tl (runGameLoop tr cfg cosf sinf s0 i)
        hstep (fun j hj => hdt j (List.mem_cons_of_mem i hj))
      simpa [runRace] using htail

/-- Claim C4 (amended): along any run whose tick deltas lie in `[0, 1/10]`
the drift charge stays within `[0, 103)`: the source's
`if (driftCharge < 100)` guard stops further accumulation at 100 but does
not cap the sum, so a drift tick can push the charge up to (but not
including) `100 + 30·dt ≤ 103`; per tick the charge equals the accumulated
value when drifting survives the tick and 0 otherwise (reset whenever
drifting is not active at tick end). -/
theorem c4_charge_range (tr : TrackData) (cfg : CarConfig) (cosf sinf : ℚ → ℚ)
    (s0 : GameState) (ins : List TickIn) (k : ℕ) (s : GameState) (inp : TickIn)
    (h0 : 0 ≤ s0.car.driftCharge ∧ s0.car.driftCharge < 103)
    (hdt : ∀ i ∈ ins, 0 ≤ i.dt ∧ i.dt ≤ 1 / 10) :
    (0 ≤ (runRace tr cfg cosf sinf s0 (ins.take k)).car.driftCharge ∧
      (runRace tr cfg cosf sinf s0 (ins.take k)).car.driftCharge < 103) ∧
    (runGameLoop tr cfg cosf sinf s inp).car.driftCharge =
      (if (runGameLoop tr cfg cosf sinf s inp).car.drifting = true then
        (if s.car.driftCharge < 100 then s.car.driftCharge + inp.dt * 30 else s.car.driftCharge)
       else 0) :=
  ⟨charge_range_run tr cfg cosf sinf (ins.take k) s0 h0
      (fun i hi => hdt i (List.mem_of_mem_take hi)),
   runGameLoop_driftCharge tr cfg cosf sinf s inp⟩

/-- Claim C4 witness: the amended statement at a concrete one-tick run. -/
theorem c4_charge_range_witness :
    (0 ≤ (runRace (trackStraight 1080) cfgTest cosQ0 sinQ0 (raceStart (trackStraight 1080) 0 0)
            ([tIn keysUp].take 1)).car.driftCharge ∧
      (runRace (trackStraight 1080) cfgTest cosQ0 sinQ0 (raceStart (trackStraight 1080) 0 0)
          ([tIn keysUp].take 1)).car.driftCharge < 103) ∧
    (runGameLoop (trackStraight 1080) cfgTest cosQ0 sinQ0
        (raceStart (trackStraight 1080) 0 0) (tIn keysUp)).car.driftCharge =
      (if (runGameLoop (trackStraight 1080) cfgTest cosQ0 sinQ0
              (raceStart (trackStraight 1080) 0 0) (tIn keysUp)).car.drifting = true then
        (if (raceStart (trackStraight 1080) 0 0).car.driftCharge < 100 then
          (raceStart (trackStraight 1080) 0 0).car.driftCharge + (tIn keysUp).dt * 30
         else (raceStart (trackStraight 1080) 0 0).car.driftCharge)
       else 0) :=
  c4_charge_range _ _ _ _ _ _ 1 _ _ (by with_unfolding_all decide) (by with_unfolding_all decide)

/-- Claim C4 counterexample: a concrete 38-tick session (accelerate, then
drift for 34 ticks at `dt = 1/10`) after which the drift charge is 102,
strictly above the claimed cap of 100; the heading stayed 0 throughout. -/
theorem c4_counterexample :
    c4run.car.driftCharge = 102 ∧
    100 < c4run.car.driftCharge ∧
    c4run.car.drifting = true ∧
    c4run.car.angle = 0 := by
  with_unfolding_all decide

/-- Claim C5 (amended): each tick sets `checkpoints[q]`,
`q = floor(idx / floor(n/4))`, only under the guard `0 ≤ q < 4` — that is,
exactly when `0 ≤ idx < 4·floor(n/4)`.  An index outside that range (in
particular one of the final `n mod 4` points of a track whose point count is
not a multiple of 4) marks nothing at all: the guard skips the write instead
of clamping the quarter to 3.  Within the tick, the checkpoint flags are
this marking, except that a completed lap resets them all to false. -/
theorem c5_checkpoint (n : ℕ) (idx : ℤ) (cp : Checkpoints)
    (tr : TrackData) (cfg : CarConfig) (cosf sinf : ℚ → ℚ) (s : GameState) (inp : TickIn)
    (h : 0 < n / 4) :
    updateCheckpoints n idx cp =
      (if 0 ≤ idx ∧ idx < 4 * ((n / 4 : ℕ) : ℤ) then cp.mark (idx / ((n / 4 : ℕ) : ℤ)) else cp) ∧
    (runGameLoop tr cfg cosf sinf s inp).checkpoints =
      (if lapTrigger tr s = true then ⟨false, false, false, false⟩
       else updateCheckpoints tr.points.length (closestScan tr.points s.car.x s.car.z).1
              s.checkpoints) := by
  constructor
  · have hzpos : (0 : ℤ) < ((n / 4 : ℕ) : ℤ) := by exact_mod_cast h
    have hne : n / 4 ≠ 0 := Nat.pos_iff_ne_zero.mp h
    have hiff : (0 ≤ idx / ((n / 4 : ℕ) : ℤ) ∧ idx / ((n / 4 : ℕ) : ℤ) < 4) ↔
        (0 ≤ idx ∧ idx < 4 * ((n / 4 : ℕ) : ℤ)) := by
      constructor
      · rintro ⟨ha, hb⟩
        refine ⟨?_, ?_⟩
        · have := (Int.le_ediv_iff_mul_le hzpos).mp ha
          simpa using this
        · exact (Int.ediv_lt_iff_lt_mul hzpos).mp hb
      · rintro ⟨ha, hb⟩
        refine ⟨Int.ediv_nonneg ha (le_of_lt hzpos), ?_⟩
        · exact (Int.ediv_lt_iff_lt_mul hzpos).mpr hb
    unfold updateCheckpoints
    rw [if_neg hne]
    by_cases hcond : 0 ≤ idx ∧ idx < 4 * ((n / 4 : ℕ) : ℤ)
    · rw [if_pos (hiff.mpr hcond), if_pos hcond]
    · rw [if_neg (fun hc => hcond (hiff.mp hc)), if_neg hcond]
  · rfl

/-- Claim C5 witness: the amended marking law at a concrete non-multiple-of-4
track (n = 5, idx = 4, zone = 1: the guard skips) and a concrete tick. -/
theorem c5_checkpoint_witness :
    updateCheckpoints 5 4 ⟨false, false, false, false⟩ =
      (if (0 : ℤ) ≤ 4 ∧ (4 : ℤ) < 4 * ((5 / 4 : ℕ) : ℤ) then
        Checkpoints.mark ⟨false, false, false, false⟩ ((4 : ℤ) / ((5 / 4 : ℕ) : ℤ))
       else ⟨false, false, false, false⟩) ∧
    (runGameLoop track5 cfgTest cosQ0 sinQ0 c5state (tIn keysNone)).checkpoints =
      (if lapTrigger track5 c5state = true then ⟨false, false, false, false⟩
       else updateCheckpoints track5.points.length
              (closestScan track5.points c5state.car.x c5state.car.z).1
              c5state.checkpoints) :=
  c5_checkpoint 5 4 ⟨false, false, false, false⟩ track5 cfgTest cosQ0 sinQ0 c5state
    (tIn keysNone) (by decide)

/-- Claim C5 counterexample: on a 5-point track the closest index 4 (one of
the final points) yields section `floor(4 / 1) = 4`, and the tick marks no
checkpoint at all — the spec's clamped quarter would be 3, but
`checkpoints[3]` stays false. -/
theorem c5_counterexample :
    (closestScan track5.points 40 0).1 = 4 ∧
    track5.points.length = 5 ∧
    specClampedQuarter 5 4 = 3 ∧
    c5post.checkpoints.c0 = false ∧
    c5post.checkpoints.c1 = false ∧
    c5post.checkpoints.c2 = false ∧
    c5post.checkpoints.c3 = false := by
  with_unfolding_all decide

theorem mark_c2_of_ne (cp : Checkpoints) (i : ℤ) (h : i ≠ 2) : (cp.mark i).c2 = cp.c2 := by
  unfold Checkpoints.mark
  split_ifs <;> simp_all

theorem mark_c3_of_ne (cp : Checkpoints) (i : ℤ) (h : i ≠ 3) : (cp.mark i).c3 = cp.c3 := by
  unfold Checkpoints.mark
  split_ifs <;> simp_all

theorem c3_step_no_back (tr : TrackData) (cfg : CarConfig) (cosf sinf : ℚ → ℚ)
    (s : GameState) (inp : TickIn)
    (hs : backHalfSector tr s = false)
    (h2 : s.checkpoints.c2 = false) (h3 : s.checkpoints.c3 = false)
    (ht : s.telemetry = []) :
    (runGameLoop tr cfg cosf sinf s inp).checkpoints.c2 = false ∧
    (runGameLoop tr cfg cosf sinf s inp).checkpoints.c3 = false ∧
    (runGameLoop tr cfg cosf sinf s inp).telemetry = [] := by
  unfold backHalfSector at hs
  have hc23 :
      (updateCheckpoints tr.points.length (closestScan tr.points s.car.x s.car.z).1
          s.checkpoints).c2 = false ∧
      (updateCheckpoints tr.points.length (closestScan tr.points s.car.x s.car.z).1
          s.checkpoints).c3 = false := by
    unfold updateCheckpoints
    by_cases hz : tr.points.length / 4 = 0
    · rw [if_pos hz]
      exact ⟨h2, h3⟩
    · rw [if_neg hz]
      rw [if_neg hz] at hs
      simp only [decide_eq_false_iff_not, not_or] at hs
      split
      · exact ⟨(mark_c2_of_ne _ _ hs.1).trans h2, (mark_c3_of_ne _ _ hs.2).trans h3⟩
      · exact ⟨h2, h3⟩
  have hlap : lapTrigger tr s = false := by
    unfold lapTrigger
    simp [hc23.1]
  refine ⟨?_, ?_, ?_⟩
  · show (if lapTrigger tr s then (⟨false, false, false, false⟩ : Checkpoints)
          else updateCheckpoints tr.points.length (closestScan tr.points s.car.x s.car.z).1
                 s.checkpoints).c2 = false
    rw [hlap]
    simpa using hc23.1
  · show (if lapTrigger tr s then (⟨false, false, false, false⟩ : Checkpoints)
          else updateCheckpoints tr.points.length (closestScan tr.points s.car.x s.car.z).1
                 s.checkpoints).c3 = false
    rw [hlap]
    simpa using hc23.2
  · show (if lapTrigger tr s then s.telemetry ++ _ else s.telemetry) = []
    rw [hlap]
    simpa using ht

theorem c3_run_no_back (tr : TrackData) (cfg : CarConfig) (cosf sinf : ℚ → ℚ) :
    ∀ (ins : List TickIn) (s0 : GameState),
      s0.checkpoints.c2 = false → s0.checkpoints.c3 = false → s0.telemetry = [] →
      (∀ k, k < ins.length →
        backHalfSector tr (runRace tr cfg cosf sinf s0 (ins.take k)) = false) →
      (runRace tr cfg cosf sinf s0 ins).telemetry = []
  | [], s0, _, _, ht, _ => ht
  | i :: tl, s0, h2, h3, ht, hsec => by
      have hs0 : backHalfSector tr s0 = false := by
        have h := hsec 0 (by simp)
        simpa [runRace] using h
      have hstep := c3_step_no_back tr cfg cosf sinf s0 i hs0 h2 h3 ht
      have htail := c3_run_no_back tr cfg cosf sinf tl (runGameLoop tr cfg cosf sinf s0 i)
        hstep.1 hstep.2.1 hstep.2.2 ?_
      · simpa [runRace] using htail
      · intro k hk
        have h := hsec (k + 1) (by simpa using Nat.succ_lt_succ hk)
        simpa [runRace, List.take_succ_cons] using h

/-- Claim C3: a LapTelemetry record is appended in a tick exactly when the
closest-point index is below 10 and quarter flags 2 and 3 (as updated by
that tick's marking) are both set; consequently a session whose closest
point never falls in quarter sector 2 or 3 appends no record, however long
it runs. -/
theorem c3_lap_append (tr : TrackData) (cfg : CarConfig) (cosf sinf : ℚ → ℚ)
    (s : GameState) (inp : TickIn) (s0 : GameState) (ins : List TickIn)
    (hinit : s0.checkpoints.c2 = false ∧ s0.checkpoints.c3 = false ∧ s0.telemetry = [])
    (hsec : ∀ k, k < ins.length →
      backHalfSector tr (runRace tr cfg cosf sinf s0 (ins.take k)) = false) :
    (runGameLoop tr cfg cosf sinf s inp).telemetry.length =
      s.telemetry.length + (if lapTrigger tr s = true then 1 else 0) ∧
    (runRace tr cfg cosf sinf s0 ins).telemetry = [] := by
  constructor
  · show (if lapTrigger tr s then s.telemetry ++ _ else s.telemetry).length = _
    split <;> simp_all
  · exact c3_run_no_back tr cfg cosf sinf ins s0 hinit.1 hinit.2.1 hinit.2.2 hsec

/-- Claim C3 witness: the statement at a concrete 8-point track with the car
resting at the start point for two ticks — sector stays 0, no lap appended. -/
theorem c3_lap_append_witness :
    (runGameLoop track8 cfgTest cosQ0 sinQ0 (raceStart track8 0 0) (tIn keysNone)).telemetry.length =
      (raceStart track8 0 0).telemetry.length +
        (if lapTrigger track8 (raceStart track8 0 0) = true then 1 else 0) ∧
    (runRace track8 cfgTest cosQ0 sinQ0 (raceStart track8 0 0)
        (List.replicate 2 (tIn keysNone))).telemetry = [] :=
  c3_lap_append track8 cfgTest cosQ0 sinQ0 (raceStart track8 0 0) (tIn keysNone)
    (raceStart track8 0 0) (List.replicate 2 (tIn keysNone))
    (by with_unfolding_all decide) (by with_unfolding_all decide)

theorem laps_len_step (tr : TrackData) (cfg : CarConfig) (cosf sinf : ℚ → ℚ)
    (s : GameState) (inp : TickIn) (h : s.laps = s.telemetry.length) :
    (runGameLoop tr cfg cosf sinf s inp).laps =
      (runGameLoop tr cfg cosf sinf s inp).telemetry.length := by
  show (if lapTrigger tr s then s.laps + 1 else s.laps) =
    (if lapTrigger tr s then s.telemetry ++ _ else s.telemetry).length
  split <;> simp [h]

theorem laps_len_run (tr : TrackData) (cfg : CarConfig) (cosf sinf : ℚ → ℚ) :
    ∀ (ins : List TickIn) (s0 : GameState), s0.laps = s0.telemetry.length →
      (runRace tr cfg cosf sinf s0 ins).laps =
        (runRace tr cfg cosf sinf s0 ins).telemetry.length
  | [], _, h0 => h0
  | i :: tl, s0, h0 => by
      have htail := laps_len_run tr cfg cosf sinf tl (runGameLoop tr cfg cosf sinf s0 i)
        (laps_len_step tr cfg cosf sinf s0 i h0)
      simpa [runRace] using htail

/-- Claim C6: at session end `bestLap` is exactly the minimum of the
recorded lap times (`none` when no lap was recorded), `totalLaps` equals the
number of recorded laps, and the telemetry sequence is returned unchanged —
so a session ended before any lap completes returns `totalLaps = 0`,
`bestLap = none` and an empty telemetry sequence. -/
theorem c6_session_stats (tr : TrackData) (cfg : CarConfig) (cosf sinf : ℚ → ℚ)
    (s0 : GameState) (ins : List TickIn) (ts : String)
    (h0 : s0.laps = s0.telemetry.length) :
    (finishRace (runRace tr cfg cosf sinf s0 ins) ts).bestLap =
      ((runRace tr cfg cosf sinf s0 ins).telemetry.map LapTelemetry.time).min? ∧
    (finishRace (runRace tr cfg cosf sinf s0 ins) ts).totalLaps =
      (runRace tr cfg cosf sinf s0 ins).telemetry.length ∧
    (finishRace (runRace tr cfg cosf sinf s0 ins) ts).telemetry =
      (runRace tr cfg cosf sinf s0 ins).telemetry := by
  refine ⟨?_, ?_, rfl⟩
  · cases h : (runRace tr cfg cosf sinf s0 ins).telemetry with
    | nil => simp [finishRace, h, List.min?]
    | cons r rs => simp [finishRace, h, List.min?]
  · show (runRace tr cfg cosf sinf s0 ins).laps = _
    exact laps_len_run tr cfg cosf sinf ins s0 h0

/-- Claim C6 witness: the statement at a concrete session ended before any
lap: `totalLaps = 0`, `bestLap = none`, empty telemetry. -/
theorem c6_session_stats_witness :
    (finishRace (runRace track8 cfgTest cosQ0 sinQ0 (raceStart track8 0 0) []) "").bestLap =
      ((runRace track8 cfgTest cosQ0 sinQ0 (raceStart track8 0 0) []).telemetry.map
        LapTelemetry.time).min? ∧
    (finishRace (runRace track8 cfgTest cosQ0 sinQ0 (raceStart track8 0 0) []) "").totalLaps =
      (runRace track8 cfgTest cosQ0 sinQ0 (raceStart track8 0 0) []).telemetry.length ∧
    (finishRace (runRace track8 cfgTest cosQ0 sinQ0 (raceStart track8 0 0) []) "").telemetry =
      (runRace track8 cfgTest cosQ0 sinQ0 (raceStart track8 0 0) []).telemetry :=
  c6_session_stats track8 cfgTest cosQ0 sinQ0 (raceStart track8 0 0) [] "" (by decide)

theorem collisions_step (tr : TrackData) (cfg : CarConfig) (cosf sinf : ℚ → ℚ)
    (s : GameState) (inp : TickIn)
    (h1 : s.currentTelemetry.collisions = 0)
    (h2 : s.telemetry.all (fun r => r.collisions == 0) = true) :
    (runGameLoop tr cfg cosf sinf s inp).currentTelemetry.collisions = 0 ∧
    (runGameLoop tr cfg cosf sinf s inp).telemetry.all (fun r => r.collisions == 0) = true := by
  constructor
  · simp only [runGameLoop]
    split <;> split <;> split <;> simp [h1]
  · simp only [runGameLoop]
    split
    · simp_all
    · exact h2

theorem collisions_run (tr : TrackData) (cfg : CarConfig) (cosf sinf : ℚ → ℚ) :
    ∀ (ins : List TickIn) (s0 : GameState),
      s0.currentTelemetry.collisions = 0 →
      s0.telemetry.all (fun r => r.collisions == 0) = true →
      (runRace tr cfg cosf sinf s0 ins).currentTelemetry.collisions = 0 ∧
      (runRace tr cfg cosf sinf s0 ins).telemetry.all (fun r => r.collisions == 0) = true
  | [], _, h1, h2 => ⟨h1, h2⟩
  | i :: tl, s0, h1, h2 => by
      have hstep := collisions_step tr cfg cosf sinf s0 i h1 h2
      have htail := collisions_run tr cfg cosf sinf tl (runGameLoop tr cfg cosf sinf s0 i)
        hstep.1 hstep.2
      simpa [runRace] using htail

/-- Claim C10: along any session whose per-lap collision counter starts at 0
and whose recorded laps all carry `collisions = 0`, the counter stays 0 (no
operation increments it) and every LapTelemetry record ever appended has
`collisions = 0` — the recorded value is the counter integer-divided by
10. -/
theorem c10_zero_collisions (tr : TrackData) (cfg : CarConfig) (cosf sinf : ℚ → ℚ)
    (s0 : GameState) (ins : List TickIn)
    (h1 : s0.currentTelemetry.collisions = 0)
    (h2 : s0.telemetry.all (fun r => r.collisions == 0) = true) :
    (runRace tr cfg cosf sinf s0 ins).currentTelemetry.collisions = 0 ∧
    (runRace tr cfg cosf sinf s0 ins).telemetry.all (fun r => r.collisions == 0) = true :=
  collisions_run tr cfg cosf sinf ins s0 h1 h2

/-- Claim C10 witness: the statement at a concrete freshly started session
run for one accelerating tick. -/
theorem c10_zero_collisions_witness :
    (runRace (trackStraight 1080) cfgTest cosQ0 sinQ0 (raceStart (trackStraight 1080) 0 0)
        [tIn keysUp]).currentTelemetry.collisions = 0 ∧
    (runRace (trackStraight 1080) cfgTest cosQ0 sinQ0 (raceStart (trackStraight 1080) 0 0)
        [tIn keysUp]).telemetry.all (fun r => r.collisions == 0) = true :=
  c10_zero_collisions (trackStraight 1080) cfgTest cosQ0 sinQ0
    (raceStart (trackStraight 1080) 0 0) [tIn keysUp] (by decide) (by decide)
